import Mathlib

/-!
Verification of the dual-store query federation and synchronization layer of the
compensation-data repository. The JavaScript sources are shallowly embedded as
executable Lean definitions: the GraphQL resolver helpers (`queryWithFallback`,
`buildWhereClause`, `buildElasticSearchQuery`, `Query.compensations`,
`Query.locationStats`), the bulk synchronization engine and record transformer of
the streamer service (`transformRecord`, `streamDataToElasticSearch`,
`setupRealTimeStreaming`), and the pagination clamping shared by both stores.
Machine numbers are modelled as `Int`/`Nat`/`ℚ`; JavaScript falsiness of `0`,
`null` and `undefined` is modelled explicitly where the source relies on it.
-/

namespace Staple

/-- JS expression `x || d` on an optional integer: `null`/`undefined` and the
number `0` are falsy, so they yield the default `d`; every other value passes
through unchanged (including negative numbers, which are truthy in JS). -/
def jsOrInt (v : Option Int) (d : Int) : Int :=
  match v with
  | none => d
  | some x => if x = 0 then d else x

/-- Effective `size` of the search-engine query, from `buildElasticSearchQuery`:
`Math.min(pagination?.limit || 20, 100)`. -/
def esQuerySize (limit : Option Int) : Int :=
  min (jsOrInt limit 20) 100

/-- Effective `LIMIT` of the relational data query, from the `Query.compensations`
resolver: `const limit = Math.min(pagination?.limit || 20, 100)`. -/
def pgQueryLimit (limit : Option Int) : Int :=
  min (jsOrInt limit 20) 100

/-- Effective offset used by both translations: `pagination?.offset || 0`. -/
def effectiveOffset (offset : Option Int) : Int :=
  jsOrInt offset 0

/-! ### Record transformer (streamer service, `transformRecord`) -/

/-- Relational row fields consumed by `transformRecord`. Money fields are integer
minor currency units (cents) and are nullable in the store. -/
structure PgRecord where
  annual_base_pay : Option Int
  annual_bonus : Option Int
  stock_value : Option Int
  years_experience_industry : Option ℚ
deriving DecidableEq

/-- Derived fields added by `transformRecord` on top of the copied row. -/
structure TransformedDoc where
  total_compensation : Int
  compensation_range : String
  experience_level : String
deriving DecidableEq

/-- Embedding of `transformRecord` from the streamer service. The `|| 0` defaults
on the money fields coincide with `Option.getD 0` because the default equals the
value replaced at `0`. `totalInDollars` is the JS float division
`total_compensation / 100`, exact here because inputs are integers. -/
def transformRecord (r : PgRecord) : TransformedDoc :=
  let basePay := r.annual_base_pay.getD 0
  let bonus := r.annual_bonus.getD 0
  let stock := r.stock_value.getD 0
  let total := basePay + bonus + stock
  let totalInDollars : ℚ := (total : ℚ) / 100
  let range :=
    if totalInDollars < 50000 then "Entry Level"
    else if totalInDollars < 100000 then "Mid Level"
    else if totalInDollars < 200000 then "Senior Level"
    else "Executive Level"
  let experience := r.years_experience_industry.getD 0
  let level :=
    if experience < 2 then "Junior"
    else if experience < 5 then "Mid-Level"
    else if experience < 10 then "Senior"
    else "Expert"
  { total_compensation := total
    compensation_range := range
    experience_level := level }

/-! ### Bulk synchronization windows (streamer service, `streamDataToElasticSearch`) -/

/-- Window size of the bulk synchronization loop (`BATCH_SIZE`). -/
def BATCH_SIZE : Nat := 1000

/-- Loop body of `streamDataToElasticSearch` over a static relational store of
`total` rows: while `offset < total`, fetch `LIMIT BATCH_SIZE OFFSET offset`
(which returns `min BATCH_SIZE (total - offset)` rows, never zero while the
guard holds, so the zero-rows break never fires on a static store), emit one
window `(offset, rows fetched)`, and advance `offset` by `BATCH_SIZE`. The
`fuel` argument is a structural bound on the number of iterations; `total`
iterations always suffice because `offset` grows by `BATCH_SIZE ≥ 1` per step. -/
def syncWindowsGo : Nat → Nat → Nat → List (Nat × Nat)
  | 0, _, _ => []
  | fuel + 1, total, offset =>
    if offset < total then
      (offset, min BATCH_SIZE (total - offset)) :: syncWindowsGo fuel total (offset + BATCH_SIZE)
    else []

/-- Sequence of `(offset, window size)` pairs produced by one run of the bulk
synchronization loop, one bulk write per element. -/
def syncWindows (total : Nat) : List (Nat × Nat) :=
  syncWindowsGo total total 0

/-! ### Per-window retry loop (streamer service, bulk write retries) -/

/-- Retry ceiling of the bulk write loop (`MAX_RETRIES`). -/
def MAX_RETRIES : Nat := 3

/-- Base backoff delay in milliseconds: the source sleeps `retries * 1000`. -/
def BACKOFF_BASE_MS : Nat := 1000

/-- Observable outcome of the per-window bulk write retry loop. -/
structure RetryResult where
  /-- Number of bulk write attempts issued for this window. -/
  attempts : Nat
  /-- Backoff delays slept between attempts, in order, in milliseconds. -/
  delays : List Nat
  /-- Whether the whole window was counted into `failedRecords`. -/
  windowFailed : Bool
  /-- Whether an error escapes the loop to the caller (the loop catches all). -/
  raised : Bool
deriving DecidableEq

/-- Embedding of the inner `while (retries < MAX_RETRIES && !success)` loop of
`streamDataToElasticSearch`. `ok n` tells whether the `n`-th bulk attempt
(1-indexed) succeeds; attempt `n` runs while `retries = n - 1`. On failure the
source increments `retries`, and either counts the window as failed (when the
ceiling is reached) or sleeps `retries * 1000` ms and retries. The `fuel`
argument is a structural bound on iterations; `MAX_RETRIES` suffices because
each failing iteration increments `retries`. -/
def retryLoop (ok : Nat → Bool) : Nat → Nat → List Nat → RetryResult
  | 0, retries, delays =>
    { attempts := retries, delays := delays.reverse, windowFailed := false, raised := false }
  | fuel + 1, retries, delays =>
    if retries < MAX_RETRIES then
      if ok (retries + 1) then
        { attempts := retries + 1, delays := delays.reverse
          windowFailed := false, raised := false }
      else
        if MAX_RETRIES ≤ retries + 1 then
          { attempts := retries + 1, delays := delays.reverse
            windowFailed := true, raised := false }
        else
          retryLoop ok fuel (retries + 1) (BACKOFF_BASE_MS * (retries + 1) :: delays)
    else
      { attempts := retries, delays := delays.reverse, windowFailed := false, raised := false }

/-- Retry behaviour of one window's bulk write, starting from `retries = 0`. -/
def runWindowRetries (ok : Nat → Bool) : RetryResult :=
  retryLoop ok MAX_RETRIES 0 []

/-! ### Fallback query router (`queryWithFallback`, GraphQL resolvers) -/

/-- Response envelope returned by `queryWithFallback`. The PostgreSQL-only path
taken when fallback is disabled returns the raw relational result, which carries
no `source` tag (`source := none`); the two fallback outcomes tag the response
with the producing store. Rows are kept abstract in `α`. -/
structure FallbackResponse (α : Type) where
  rows : List α
  source : Option String
deriving DecidableEq

/-- Embedding of `queryWithFallback(esQuery, pgQuery, pgParams)`. The two store
calls are modelled by their outcomes: `es` is the result of `search(esQuery)`
(its `hits.hits` list on success), `pg` the result of `query(pgQuery, pgParams)`.
Control flow follows the source: fallback disabled returns the relational result
directly (errors uncaught); otherwise a successful search with at least one hit
returns tagged `elasticsearch`, while a thrown search error or an empty hit list
falls through to PostgreSQL, whose own error is rethrown to the caller. -/
def queryWithFallback {α : Type} (enabled : Bool)
    (es : Except String (List α)) (pg : Except String (List α)) :
    Except String (FallbackResponse α) :=
  if enabled = false then
    pg.map (fun rows => { rows := rows, source := none })
  else
    match es with
    | .ok hits =>
      if 0 < hits.length then
        .ok { rows := hits, source := some "elasticsearch" }
      else
        pg.map (fun rows => { rows := rows, source := some "postgresql" })
    | .error _ =>
      pg.map (fun rows => { rows := rows, source := some "postgresql" })

/-! ### Row-listing resolver primary path (`Query.compensations`) -/

/-- Shape of `hits.total` in a search response of the v8 client
(`@elastic/elasticsearch` `^8.10.0` in `package.json`): an object
`\x7bvalue, relation\x7d`. -/
structure EsTotal where
  value : Nat
deriving DecidableEq

/-- JS truthiness of the `hits.total` field tested by `Query.compensations`
(`esResult && esResult.hits && esResult.hits.total`). With the v8 client
`hits.total` is an object, and a JS object is always truthy, so the test holds
for every well-formed search response, including one with zero hits. -/
def esTotalTruthy (_t : EsTotal) : Bool := true

/-- Search response body consumed by the row-listing resolver. -/
structure EsListResult (α : Type) where
  total : EsTotal
  hits : List α
deriving DecidableEq

/-- Connection envelope built by `Query.compensations` (pagination flags are
derived fields not modelled here). -/
structure ListConnection (α : Type) where
  data : List α
  totalCount : Nat
  source : String
deriving DecidableEq

/-- Embedding of the store-selection logic of the `Query.compensations` resolver:
when fallback is enabled, try the search store; a response passing the truthiness
guard on `hits.total` is returned immediately tagged `elasticsearch`, and only a
thrown search error (caught by the inner `catch`) lets control reach the
PostgreSQL count/data queries, whose result is tagged `postgresql`. The
relational outcome `pg` carries the parsed total count and the data rows. -/
def compensationsResolve {α : Type} (enabled : Bool)
    (es : Except String (EsListResult α))
    (pg : Except String (Nat × List α)) :
    Except String (ListConnection α) :=
  let esAttempt : Option (ListConnection α) :=
    if enabled then
      match es with
      | .ok r =>
        if esTotalTruthy r.total then
          some { data := r.hits, totalCount := r.total.value, source := "elasticsearch" }
        else
          none
      | .error _ => none
    else
      none
  match esAttempt with
  | some c => .ok c
  | none => pg.map (fun pr => { data := pr.2, totalCount := pr.1, source := "postgresql" })

/-! ### Change capture delete path (`setupRealTimeStreaming` notification handler) -/

/-- Search store state for the change-capture model: the set of document keys
currently present in the index, as a list. -/
abbrev SearchStore := List String

/-- Error raised by the search store client. Modelled from the spec and the
`@elastic/elasticsearch` client contract: `esClient.delete` on a missing
document id receives a 404 response and rejects with a `ResponseError`. -/
inductive EsClientError where
  | notFound
deriving DecidableEq

/-- Delete-by-id call issued by the notification handler
(`esClient.delete(\x7bindex, id, refresh: wait_for\x7d)`): removes the document
when present, rejects with a not-found error when absent. -/
def esDeleteDoc (store : SearchStore) (key : String) : Except EsClientError SearchStore :=
  if key ∈ store then .ok (store.filter (fun k => k ≠ key)) else .error .notFound

/-- Observable outcome of processing one change notification: either the handler
body ran to completion (success logging path), or an error was caught by the
handler's `catch`, logged, and the event dropped. -/
inductive NotifyOutcome where
  | completedOk
  | caughtError
deriving DecidableEq

/-- Embedding of the `DELETE` branch of the notification handler registered in
`setupRealTimeStreaming`: the whole body is wrapped in `try/catch`, so a store
error never propagates out of the handler; it is logged and the event dropped,
leaving the store unchanged. -/
def processDeleteNotification (store : SearchStore) (key : String) :
    SearchStore × NotifyOutcome :=
  match esDeleteDoc store key with
  | .ok s => (s, .completedOk)
  | .error _ => (store, .caughtError)

/-! ### Filter translator (`buildWhereClause` / `buildElasticSearchQuery`) -/

/-- Numeric range filter input (`BigIntRange` / `FloatRange` of the GraphQL
schema): optional inclusive bounds. -/
structure NumRange where
  min : Option Int
  max : Option Int
deriving DecidableEq

/-- Logical filter object received by both translators, with the predicate slots
that `buildWhereClause` consumes; absent slot means no constraint. -/
structure LogicalFilter where
  employer : Option String := none
  jobTitleContains : Option String := none
  locationContains : Option String := none
  industry : Option String := none
  gender : Option String := none
  annualBasePay : Option NumRange := none
  yearsExperienceIndustry : Option NumRange := none
  timestampAfter : Option Int := none
  timestampBefore : Option Int := none
  healthInsuranceOffered : Option Bool := none
  dataQualityScoreMin : Option Int := none
deriving DecidableEq

/-- Columns of `compensation_data` referenced by the generated SQL conditions. -/
inductive Col where
  | employer
  | job_title
  | location
  | industry
  | gender
  | annual_base_pay
  | years_experience_industry
  | timestamp
  | health_insurance_offered
  | data_quality_score
deriving DecidableEq

/-- One SQL condition emitted by `buildWhereClause`; the conditions are joined
with `AND`. -/
inductive PgCond where
  /-- Condition `col ILIKE '%' || pat || '%'`: case-insensitive substring. -/
  | ilikeContains (col : Col) (pat : String)
  /-- Condition `col = v`: case-sensitive equality. -/
  | eqStr (col : Col) (v : String)
  /-- Condition `col ILIKE v` with no wildcards added by the builder. -/
  | ilikeStr (col : Col) (v : String)
  /-- Condition `col >= v`. -/
  | geInt (col : Col) (v : Int)
  /-- Condition `col <= v`. -/
  | leInt (col : Col) (v : Int)
  /-- Condition `col = v` on a boolean column. -/
  | eqBool (col : Col) (v : Bool)
deriving DecidableEq

/-- Embedding of `buildWhereClause(filter)`: the list of SQL conditions in the
order the source pushes them (text slots, exact slots, ranges, dates, boolean,
data-quality). Date bounds are modelled as integer timestamps. -/
def buildWhereClause (f : LogicalFilter) : List PgCond :=
  (match f.employer with | some v => [.ilikeContains .employer v] | none => [])
  ++ (match f.jobTitleContains with | some v => [.ilikeContains .job_title v] | none => [])
  ++ (match f.locationContains with | some v => [.ilikeContains .location v] | none => [])
  ++ (match f.industry with | some v => [.eqStr .industry v] | none => [])
  ++ (match f.gender with | some v => [.ilikeStr .gender v] | none => [])
  ++ (match f.annualBasePay with
      | some r =>
        (match r.min with | some m => [.geInt .annual_base_pay m] | none => [])
        ++ (match r.max with | some m => [.leInt .annual_base_pay m] | none => [])
      | none => [])
  ++ (match f.yearsExperienceIndustry with
      | some r =>
        (match r.min with | some m => [.geInt .years_experience_industry m] | none => [])
        ++ (match r.max with | some m => [.leInt .years_experience_industry m] | none => [])
      | none => [])
  ++ (match f.timestampAfter with | some v => [.geInt .timestamp v] | none => [])
  ++ (match f.timestampBefore with | some v => [.leInt .timestamp v] | none => [])
  ++ (match f.healthInsuranceOffered with
      | some b => [.eqBool .health_insurance_offered b] | none => [])
  ++ (match f.dataQualityScoreMin with
      | some v => [.geInt .data_quality_score v] | none => [])

/-- Document fields referenced by the generated search-engine clauses. -/
inductive EsField where
  | employer
  | job_title
  | location
  | industry_keyword
  | gender
  | annual_base_pay
  | years_experience_industry
deriving DecidableEq

/-- One clause of the `bool.must` array emitted by `buildElasticSearchQuery`. -/
inductive EsClause where
  /-- Clause `match \x7bfield: \x7bquery, fuzziness: AUTO\x7d\x7d`: analyzed
  full-text match with fuzziness. -/
  | matchFuzzy (field : EsField) (q : String)
  /-- Clause `term` against a keyword(-typed) field: exact, case-sensitive. -/
  | term (field : EsField) (v : String)
  /-- Clause `range \x7bfield: \x7bgte?, lte?\x7d\x7d`: inclusive bounds. -/
  | range (field : EsField) (gte : Option Int) (lte : Option Int)
deriving DecidableEq

/-- Embedding of the `bool.must` array built by `buildElasticSearchQuery(filter)`,
in source push order. The source translates only the three fuzzy text slots, the
two exact slots and the two numeric ranges; the `timestampAfter`,
`timestampBefore`, `healthInsuranceOffered` and `dataQualityScoreMin` slots of
the filter are not translated at all. -/
def buildEsMust (f : LogicalFilter) : List EsClause :=
  (match f.employer with | some v => [.matchFuzzy .employer v] | none => [])
  ++ (match f.jobTitleContains with | some v => [.matchFuzzy .job_title v] | none => [])
  ++ (match f.locationContains with | some v => [.matchFuzzy .location v] | none => [])
  ++ (match f.industry with | some v => [.term .industry_keyword v] | none => [])
  ++ (match f.gender with | some v => [.term .gender v] | none => [])
  ++ (match f.annualBasePay with | some r => [.range .annual_base_pay r.min r.max] | none => [])
  ++ (match f.yearsExperienceIndustry with
      | some r => [.range .years_experience_industry r.min r.max] | none => [])

/-- Fixture row of the relational store, with the columns the translated
conditions touch plus the key and creation order. Numeric columns are integers
(experience is stored as decimal years; integral values suffice for the
equivalence statements, which never divide). -/
structure Row where
  id : Nat
  employer : String
  job_title : String
  location : String
  industry : String
  gender : String
  annual_base_pay : Int
  years_experience_industry : Int
  timestamp : Int
  health_insurance_offered : Bool
  data_quality_score : Int
  created_at : Int
deriving DecidableEq

/-- String value of a text column of a row. -/
def Row.strCol (r : Row) : Col → String
  | .employer => r.employer
  | .job_title => r.job_title
  | .location => r.location
  | .industry => r.industry
  | .gender => r.gender
  | _ => ""

/-- Integer value of a numeric column of a row. -/
def Row.intCol (r : Row) : Col → Int
  | .annual_base_pay => r.annual_base_pay
  | .years_experience_industry => r.years_experience_industry
  | .timestamp => r.timestamp
  | .data_quality_score => r.data_quality_score
  | _ => 0

/-- Boolean value of a boolean column of a row. -/
def Row.boolCol (r : Row) : Col → Bool
  | .health_insurance_offered => r.health_insurance_offered
  | _ => false

/-- Value a search document holds for a queried field. Keyword subfields index
the stored string verbatim, so `industry.keyword` mirrors the row's `industry`
column and `gender` (keyword-typed) mirrors `gender`. -/
def Row.esStrField (r : Row) : EsField → String
  | .employer => r.employer
  | .job_title => r.job_title
  | .location => r.location
  | .industry_keyword => r.industry
  | .gender => r.gender
  | _ => ""

/-- Numeric value a search document holds for a queried field. -/
def Row.esIntField (r : Row) : EsField → Int
  | .annual_base_pay => r.annual_base_pay
  | .years_experience_industry => r.years_experience_industry
  | _ => 0

/-- Case-insensitive substring test: the semantics of `col ILIKE '%pat%'` for a
pattern without wildcard metacharacters. -/
def ciContains (s pat : String) : Bool :=
  decide (pat.toLower.toList <:+: s.toLower.toList)

/-- PostgreSQL truth value of one generated SQL condition on a row. `ILIKE`
without wildcards is case-insensitive equality. -/
def evalPgCond (r : Row) : PgCond → Bool
  | .ilikeContains col pat => ciContains (r.strCol col) pat
  | .eqStr col v => r.strCol col = v
  | .ilikeStr col v => (r.strCol col).toLower = v.toLower
  | .geInt col v => v ≤ r.intCol col
  | .leInt col v => r.intCol col ≤ v
  | .eqBool col v => r.boolCol col = v

/-- Search-engine truth value of one `bool.must` clause on the document derived
from a row. Fuzzy analyzed matching has no exact relational counterpart, so it
is kept abstract in the oracle `fm field docValue query`; `term` is exact
equality on the keyword value; `range` bounds are inclusive (`gte`/`lte`). -/
def evalEsClause (fm : EsField → String → String → Bool) (r : Row) : EsClause → Bool
  | .matchFuzzy field q => fm field (r.esStrField field) q
  | .term field v => r.esStrField field = v
  | .range field gte lte =>
    (match gte with | some m => decide (m ≤ r.esIntField field) | none => true)
      && (match lte with | some m => decide (r.esIntField field ≤ m) | none => true)

/-- Rows of the store selected by the relational translation of a filter: the
`WHERE` clause is the conjunction of the generated conditions. -/
def pgSelectedRows (f : LogicalFilter) (rows : List Row) : List Row :=
  rows.filter (fun r => (buildWhereClause f).all (evalPgCond r))

/-- Rows of the store selected by the search-engine translation of a filter: a
document matches the `bool` query when every `must` clause holds. -/
def esSelectedRows (fm : EsField → String → String → Bool)
    (f : LogicalFilter) (rows : List Row) : List Row :=
  rows.filter (fun r => (buildEsMust f).all (evalEsClause fm r))

/-- Stable insertion of a row into a list sorted by `created_at` descending. -/
def insertByCreatedDesc (x : Row) : List Row → List Row
  | [] => [x]
  | y :: ys => if y.created_at < x.created_at then x :: y :: ys else y :: insertByCreatedDesc x ys

/-- Stable sort by `created_at` descending: the default order of both
translations (`ORDER BY created_at DESC` and `sort: [created_at: desc]`). -/
def sortByCreatedAtDesc (rows : List Row) : List Row :=
  rows.foldr insertByCreatedDesc []

/-- Key list produced by a row-listing query over already-selected rows: default
sort, then offset/limit pagination, then projection to row keys. Both
translations paginate the same way (`from`/`size` and `OFFSET`/`LIMIT`). -/
def listQueryKeys (rows : List Row) (offset limit : Nat) : List Nat :=
  (((sortByCreatedAtDesc rows).drop offset).take limit).map Row.id

/-- Keys returned by the search-engine translation of a row-listing request. -/
def esListKeys (fm : EsField → String → String → Bool) (f : LogicalFilter)
    (rows : List Row) (offset limit : Nat) : List Nat :=
  listQueryKeys (esSelectedRows fm f rows) offset limit

/-- Keys returned by the relational translation of a row-listing request. -/
def pgListKeys (f : LogicalFilter) (rows : List Row) (offset limit : Nat) : List Nat :=
  listQueryKeys (pgSelectedRows f rows) offset limit

/-! ### Location statistics aggregate (`Query.locationStats`, relational path) -/

/-- Row projection consumed by the `locationStats` aggregate. -/
structure StatRow where
  location : Option String
  annual_base_pay : Option Int
deriving DecidableEq

/-- Base-pay values (cents) of the rows of one location group, after the SQL
filters of `Query.locationStats`: `location IS NOT NULL`, `annual_base_pay IS
NOT NULL AND annual_base_pay > 0`, grouped by `location`. -/
def locationPays (loc : String) (rows : List StatRow) : List Int :=
  rows.filterMap (fun r =>
    if r.location = some loc then
      match r.annual_base_pay with
      | some p => if 0 < p then some p else none
      | none => none
    else none)

/-- Value of `AVG(annual_base_pay::DECIMAL / 100)` over one location group:
exact decimal average of the cents values divided by 100. -/
def locationAverageSalary (pays : List Int) : ℚ :=
  (pays.map (fun p => (p : ℚ) / 100)).sum / pays.length

/-- Fixture of the concrete scenario: three San Francisco rows with base pay in
cents 12000000, 11000000 and 9500000. -/
def sfFixture : List StatRow :=
  [ { location := some "San Francisco", annual_base_pay := some 12000000 }
  , { location := some "San Francisco", annual_base_pay := some 11000000 }
  , { location := some "San Francisco", annual_base_pay := some 9500000 } ]

/-! ### Concrete fixtures used by counterexamples and witnesses -/

/-- Filter populating only the boolean health-insurance slot, a slot without
fuzzy-text semantics that `buildWhereClause` translates but
`buildElasticSearchQuery` silently drops. -/
def c2Filter : LogicalFilter := { healthInsuranceOffered := some false }

/-- Single store row whose health-insurance flag disagrees with `c2Filter`. -/
def c2Row : Row :=
  { id := 1, employer := "Initech", job_title := "Engineer", location := "Austin"
    industry := "Tech", gender := "X", annual_base_pay := 100
    years_experience_industry := 1, timestamp := 0
    health_insurance_offered := true, data_quality_score := 50, created_at := 0 }

/-- Filter populating only the slots both translators handle identically. -/
def c2WitnessFilter : LogicalFilter :=
  { industry := some "Tech"
    annualBasePay := some { min := some 50, max := some 20000 } }

/-- Two-row store used to evaluate the amended translation equivalence. -/
def c2WitnessRows : List Row :=
  [ c2Row
  , { id := 2, employer := "Globex", job_title := "Analyst", location := "Reno"
      industry := "Retail", gender := "Y", annual_base_pay := 30
      years_experience_industry := 3, timestamp := 5
      health_insurance_offered := false, data_quality_score := 75, created_at := 9 } ]

/-- Record with 3,000,000 cents of base pay and no bonus or stock: total
compensation of 30,000 whole-currency-units, below the first threshold. -/
def c4Record : PgRecord :=
  { annual_base_pay := some 3000000, annual_bonus := none
    stock_value := none, years_experience_industry := none }

/-! ## Theorems -/

/-- C1: for every query routed through `queryWithFallback`: with fallback
disabled only the relational query is executed (the result does not depend on
the search outcome, and the relational result or error is returned as is); when
the search query throws, the relational result is returned tagged with
relational provenance (`postgresql`); and when that relational query also
fails, its error propagates to the caller with no further fallback. -/
theorem c1_fallback_router {α : Type} :
    (∀ es es2 pg : Except String (List α),
      queryWithFallback false es pg = queryWithFallback false es2 pg)
    ∧ (∀ (es : Except String (List α)) (rows : List α),
      queryWithFallback false es (.ok rows) = .ok { rows := rows, source := none })
    ∧ (∀ (es : Except String (List α)) (e : String),
      queryWithFallback false es (.error e) = .error e)
    ∧ (∀ (e : String) (rows : List α),
      queryWithFallback true (.error e) (.ok rows)
        = .ok { rows := rows, source := some "postgresql" })
    ∧ (∀ e e2 : String,
      queryWithFallback true (.error e) (.error e2)
        = (.error e2 : Except String (FallbackResponse α))) :=
  ⟨fun _ _ _ => rfl, fun _ _ => rfl, fun _ _ => rfl, fun _ _ => rfl, fun _ _ => rfl⟩

/-- C3: on the row-listing primary path of `Query.compensations`, a clean search
response — including one with zero hits — passes the truthiness guard on
`hits.total` and is returned immediately tagged `elasticsearch`, without
consulting the relational store; only a thrown search error reaches the
relational queries, whose result is tagged `postgresql`. -/
theorem c3_clean_empty_is_genuine {α : Type} :
    (∀ (t : EsTotal) (pg : Except String (Nat × List α)),
      compensationsResolve true (.ok { total := t, hits := [] }) pg
        = .ok { data := [], totalCount := t.value, source := "elasticsearch" })
    ∧ (∀ (r : EsListResult α) (pg pg2 : Except String (Nat × List α)),
      compensationsResolve true (.ok r) pg = compensationsResolve true (.ok r) pg2)
    ∧ (∀ (e : String) (n : Nat) (rows : List α),
      compensationsResolve true (.error e) (.ok (n, rows))
        = .ok { data := rows, totalCount := n, source := "postgresql" }) :=
  ⟨fun _ _ => rfl, fun _ _ _ => rfl, fun _ _ _ => rfl⟩

/-- Helper: the per-window retry loop catches every bulk error, so no error ever
escapes to the synchronization driver, whatever the attempt outcomes. -/
theorem retryLoop_never_raises (ok : Nat → Bool) :
    ∀ (fuel retries : Nat) (delays : List Nat),
      (retryLoop ok fuel retries delays).raised = false := by
  intro fuel
  induction fuel with
  | zero => intro retries delays; rfl
  | succ n ih =>
    intro retries delays
    simp only [retryLoop]
    split
    · split
      · rfl
      · split
        · rfl
        · exact ih _ _
    · rfl

/-- C6: a window whose bulk write fails on every attempt is tried exactly
`MAX_RETRIES = 3` times, sleeping the base delay times the attempt number
between attempts (1000 ms then 2000 ms), after which the whole window is
counted as failed; and for every pattern of attempt outcomes the loop raises
nothing, so synchronization proceeds to the next window. -/
theorem c6_retry_ceiling_and_backoff :
    runWindowRetries (fun _ => false)
      = { attempts := 3, delays := [BACKOFF_BASE_MS * 1, BACKOFF_BASE_MS * 2]
          windowFailed := true, raised := false }
    ∧ (∀ ok : Nat → Bool, (runWindowRetries ok).raised = false) :=
  ⟨by decide, fun ok => retryLoop_never_raises ok MAX_RETRIES 0 []⟩

/-- C7 counterexample: delivering a delete notification for key `k1` when no
such document exists makes the store client throw, and the handler takes its
catch path (`caughtError`), unlike the delete of an existing key which takes
the success path (`completedOk`) — so the missing-key delete is not processed
identically to an existing-key delete. -/
theorem c7_counterexample :
    processDeleteNotification [] "k1" = ([], .caughtError)
    ∧ processDeleteNotification ["k1"] "k1" = ([], .completedOk)
    ∧ NotifyOutcome.caughtError ≠ NotifyOutcome.completedOk := by
  refine ⟨by decide, by decide, by decide⟩

/-- C7 amended: deleting a key with no corresponding document completes without
propagating any error — the handler's catch absorbs the store's not-found
rejection and drops the event, leaving the store unchanged — but through the
error-logging path, not the success path taken for an existing key. -/
theorem c7_amended_catch_absorbs_missing_delete (store : SearchStore) (key : String)
    (h : key ∉ store) :
    processDeleteNotification store key = (store, .caughtError) := by
  simp [processDeleteNotification, esDeleteDoc, h]

/-- C7 witness: the amended statement evaluated on the concrete scenario of the
claim, an empty search store and key `k1`. -/
theorem c7_witness : processDeleteNotification [] "k1" = ([], .caughtError) :=
  c7_amended_catch_absorbs_missing_delete [] "k1" (by decide)

/-- C8: for every caller-supplied pagination input, the effective page size of
both the search-engine query (`size`) and the relational query (`LIMIT`) is at
most 100, and any requested limit above 100 is clamped to exactly 100. -/
theorem c8_limit_clamped_to_100 :
    (∀ l : Option Int, esQuerySize l ≤ 100 ∧ pgQueryLimit l ≤ 100)
    ∧ (∀ v : Int, 100 < v → esQuerySize (some v) = 100 ∧ pgQueryLimit (some v) = 100) := by
  constructor
  · intro l
    exact ⟨min_le_right _ _, min_le_right _ _⟩
  · intro v hv
    have h0 : ¬ v = 0 := by omega
    have h1 : jsOrInt (some v) 20 = v := by simp [jsOrInt, h0]
    have h2 : min v 100 = 100 := min_eq_right (by omega)
    exact ⟨by rw [esQuerySize, h1, h2], by rw [pgQueryLimit, h1, h2]⟩

/-- C8 witness: a requested limit of 250 is clamped to 100 in both queries. -/
theorem c8_witness : esQuerySize (some 250) = 100 ∧ pgQueryLimit (some 250) = 100 :=
  c8_limit_clamped_to_100.2 250 (by norm_num)

/-- C10: a caller-supplied limit of 0 is falsy in JS and silently replaced by
the default 20 in both queries, and a negative limit is passed through to both
stores unchanged — only the upper bound of 100 is enforced. -/
theorem c10_zero_default_negative_passthrough :
    (esQuerySize (some 0) = 20 ∧ pgQueryLimit (some 0) = 20)
    ∧ (∀ v : Int, v < 0 → esQuerySize (some v) = v ∧ pgQueryLimit (some v) = v) := by
  constructor
  · exact ⟨by norm_num [esQuerySize, jsOrInt], by norm_num [pgQueryLimit, jsOrInt]⟩
  · intro v hv
    have h0 : ¬ v = 0 := by omega
    have h1 : jsOrInt (some v) 20 = v := by simp [jsOrInt, h0]
    have h2 : min v 100 = v := min_eq_left (by omega)
    exact ⟨by rw [esQuerySize, h1, h2], by rw [pgQueryLimit, h1, h2]⟩

/-- C10 witness: a requested limit of -7 reaches both stores unchanged. -/
theorem c10_witness : esQuerySize (some (-7)) = -7 ∧ pgQueryLimit (some (-7)) = -7 :=
  c10_zero_default_negative_passthrough.2 (-7) (by norm_num)

/-- C9 counterexample: on the fixture of three San Francisco rows with base pay
in cents 12000000, 11000000 and 9500000, the relational `locationStats`
aggregate computes count 3 and average salary `325000 / 3 ≈ 108333.33`
whole-currency-units, which differs from the claimed value 110833.33. -/
theorem c9_counterexample :
    (locationPays "San Francisco" sfFixture).length = 3
    ∧ locationAverageSalary (locationPays "San Francisco" sfFixture) = 325000 / 3
    ∧ (325000 / 3 : ℚ) ≠ 11083333 / 100 := by
  have hp : locationPays "San Francisco" sfFixture = [12000000, 11000000, 9500000] := by
    decide
  refine ⟨by rw [hp]; rfl, ?_, by norm_num⟩
  rw [hp]
  norm_num [locationAverageSalary]

/-- C9 amended: the fixture aggregate reports count 3 and average salary
`(120000 + 110000 + 95000) / 3 = 325000 / 3 ≈ 108333.33` whole-currency-units,
the average of the three base pays after cents-to-units conversion. -/
theorem c9_amended_average :
    (locationPays "San Francisco" sfFixture).length = 3
    ∧ locationAverageSalary (locationPays "San Francisco" sfFixture)
      = (120000 + 110000 + 95000) / 3 := by
  have hp : locationPays "San Francisco" sfFixture = [12000000, 11000000, 9500000] := by
    decide
  refine ⟨by rw [hp]; rfl, ?_⟩
  rw [hp]
  norm_num [locationAverageSalary]

/-- Helper: the whole-currency-unit comparison `cents / 100 < m` performed in
rationals agrees with the integer comparison `cents < m * 100`. -/
theorem cents_div_lt_iff (t m : Int) : ((t : ℚ) / 100 < (m : ℚ)) ↔ t < m * 100 := by
  rw [div_lt_iff₀ (by norm_num : (0 : ℚ) < 100)]
  constructor
  · intro h
    have h2 : (t : ℚ) < ((m * 100 : Int) : ℚ) := by push_cast; linarith
    exact_mod_cast h2
  · intro h
    have h2 : (t : ℚ) < ((m * 100 : Int) : ℚ) := by exact_mod_cast h
    push_cast at h2
    linarith

/-- Helper: the bracket label computed by `transformRecord` from the rational
`totalInDollars` coincides with the label determined by integer cent
thresholds. -/
theorem rangeLabel_cents (t : Int) :
    (if (t : ℚ) / 100 < 50000 then "Entry Level"
     else if (t : ℚ) / 100 < 100000 then "Mid Level"
     else if (t : ℚ) / 100 < 200000 then "Senior Level"
     else "Executive Level")
    = (if t < 5000000 then "Entry Level"
       else if t < 10000000 then "Mid Level"
       else if t < 20000000 then "Senior Level"
       else "Executive Level") := by
  have k1 : ((t : ℚ) / 100 < 50000) ↔ t < 5000000 := by
    have := cents_div_lt_iff t 50000
    norm_num at this
    exact this
  have k2 : ((t : ℚ) / 100 < 100000) ↔ t < 10000000 := by
    have := cents_div_lt_iff t 100000
    norm_num at this
    exact this
  have k3 : ((t : ℚ) / 100 < 200000) ↔ t < 20000000 := by
    have := cents_div_lt_iff t 200000
    norm_num at this
    exact this
  simp only [k1, k2, k3]

/-- C4 counterexample: on a record totalling 3,000,000 cents (30,000
whole-currency-units, below the 50,000 threshold) the transformer emits the
bracket label `Entry Level`, not `Entry` as the claim states. -/
theorem c4_counterexample :
    (transformRecord c4Record).total_compensation = 3000000
    ∧ (transformRecord c4Record).compensation_range = "Entry Level"
    ∧ (transformRecord c4Record).compensation_range ≠ "Entry" := by
  have h : (transformRecord c4Record).compensation_range = "Entry Level" := by
    show (if ((3000000 : Int) : ℚ) / 100 < 50000 then "Entry Level"
          else if ((3000000 : Int) : ℚ) / 100 < 100000 then "Mid Level"
          else if ((3000000 : Int) : ℚ) / 100 < 200000 then "Senior Level"
          else "Executive Level") = "Entry Level"
    rw [if_pos]
    rw [div_lt_iff₀ (by norm_num : (0 : ℚ) < 100)]
    norm_num
  exact ⟨rfl, h, by rw [h]; decide⟩

/-- C4 amended: for every structurally valid record the transformer's
`total_compensation` is base pay plus bonus plus stock value with absent fields
treated as zero, and its bracket is `Entry Level` below 50,000
whole-currency-units (5,000,000 cents), `Mid Level` below 100,000, `Senior
Level` below 200,000, and `Executive Level` otherwise. -/
theorem c4_amended_brackets (r : PgRecord) :
    (transformRecord r).total_compensation
      = r.annual_base_pay.getD 0 + r.annual_bonus.getD 0 + r.stock_value.getD 0
    ∧ (transformRecord r).compensation_range
      = (if (transformRecord r).total_compensation < 5000000 then "Entry Level"
         else if (transformRecord r).total_compensation < 10000000 then "Mid Level"
         else if (transformRecord r).total_compensation < 20000000 then "Senior Level"
         else "Executive Level") := by
  refine ⟨rfl, ?_⟩
  have hrange : (transformRecord r).compensation_range
      = (if ((r.annual_base_pay.getD 0 + r.annual_bonus.getD 0 + r.stock_value.getD 0 : Int) : ℚ)
            / 100 < 50000 then "Entry Level"
         else if ((r.annual_base_pay.getD 0 + r.annual_bonus.getD 0
            + r.stock_value.getD 0 : Int) : ℚ) / 100 < 100000 then "Mid Level"
         else if ((r.annual_base_pay.getD 0 + r.annual_bonus.getD 0
            + r.stock_value.getD 0 : Int) : ℚ) / 100 < 200000 then "Senior Level"
         else "Executive Level") := rfl
  rw [hrange, rangeLabel_cents]
  rfl

/-- Helper: element `i` of the window list starting at `offset` is the window at
offset `offset + BATCH_SIZE * i` with `min BATCH_SIZE (total - offset')` rows,
whatever fuel remains. -/
theorem syncWindowsGo_get (fuel : Nat) :
    ∀ (total offset i : Nat) (h : i < (syncWindowsGo fuel total offset).length),
      (syncWindowsGo fuel total offset).get ⟨i, h⟩
        = (offset + BATCH_SIZE * i, min BATCH_SIZE (total - (offset + BATCH_SIZE * i))) := by
  induction fuel with
  | zero =>
    intro total offset i h
    simp [syncWindowsGo] at h
  | succ n ih =>
    intro total offset i h
    by_cases hc : offset < total
    · have hgo : syncWindowsGo (n + 1) total offset
          = (offset, min BATCH_SIZE (total - offset))
              :: syncWindowsGo n total (offset + BATCH_SIZE) := by
        simp [syncWindowsGo, if_pos hc]
      have h2 : i < ((offset, min BATCH_SIZE (total - offset))
          :: syncWindowsGo n total (offset + BATCH_SIZE)).length := by
        rw [hgo] at h
        exact h
      rw [List.get_of_eq hgo]
      cases i with
      | zero => simp
      | succ j =>
        have h3 : j < (syncWindowsGo n total (offset + BATCH_SIZE)).length := by
          simpa using h2
        have hstep : ((offset, min BATCH_SIZE (total - offset))
              :: syncWindowsGo n total (offset + BATCH_SIZE)).get ⟨j + 1, h2⟩
            = (syncWindowsGo n total (offset + BATCH_SIZE)).get ⟨j, h3⟩ := rfl
        rw [hstep, ih total (offset + BATCH_SIZE) j h3]
        have harith : offset + BATCH_SIZE + BATCH_SIZE * j = offset + BATCH_SIZE * (j + 1) := by
          ring
        rw [harith]
    · exfalso
      have hgo : syncWindowsGo (n + 1) total offset = [] := by
        simp [syncWindowsGo, if_neg hc]
      rw [hgo] at h
      simp at h

/-- Helper: with enough fuel the loop does not stop before the offsets have
covered the whole store. -/
theorem syncWindowsGo_cover (fuel : Nat) :
    ∀ total offset : Nat, total ≤ offset + BATCH_SIZE * fuel →
      total ≤ offset + BATCH_SIZE * (syncWindowsGo fuel total offset).length := by
  induction fuel with
  | zero =>
    intro total offset h
    simpa [syncWindowsGo] using h
  | succ n ih =>
    intro total offset h
    by_cases hc : offset < total
    · simp only [syncWindowsGo, if_pos hc, List.length_cons]
      have step := ih total (offset + BATCH_SIZE) (by simp only [BATCH_SIZE] at h ⊢; omega)
      simp only [BATCH_SIZE] at step ⊢
      omega
    · simp only [syncWindowsGo, if_neg hc, List.length_nil]
      omega

/-- Helper: every emitted window starts strictly before the end of the store. -/
theorem syncWindowsGo_mem_lt (fuel : Nat) :
    ∀ (total offset : Nat) (w : Nat × Nat),
      w ∈ syncWindowsGo fuel total offset → w.1 < total := by
  induction fuel with
  | zero =>
    intro total offset w h
    simp [syncWindowsGo] at h
  | succ n ih =>
    intro total offset w h
    by_cases hc : offset < total
    · simp only [syncWindowsGo, if_pos hc] at h
      rcases List.mem_cons.mp h with h1 | h2
      · rw [h1]
        exact hc
      · exact ih total (offset + BATCH_SIZE) w h2
    · simp [syncWindowsGo, if_neg hc] at h

/-- C5: the bulk synchronization loop over a static relational store of `total`
rows emits windows whose offsets start at 0 and strictly increase by 1000, each
window fetching `min 1000 (total - offset)` rows in one bulk write; the windows
cover the whole store (`total ≤ 1000 · number of windows`) and none starts at
or past `total`; in particular over 2,500 rows it performs exactly the three
windows of sizes 1000, 1000 and 500. -/
theorem c5_bulk_sync_windows :
    syncWindows 2500 = [(0, 1000), (1000, 1000), (2000, 500)]
    ∧ (∀ (total i : Nat) (h : i < (syncWindows total).length),
        (syncWindows total).get ⟨i, h⟩ = (1000 * i, min 1000 (total - 1000 * i)))
    ∧ (∀ total : Nat, total ≤ 1000 * (syncWindows total).length)
    ∧ (∀ (total : Nat) (w : Nat × Nat), w ∈ syncWindows total → w.1 < total) := by
  refine ⟨by decide, ?_, ?_, ?_⟩
  · intro total i h
    have := syncWindowsGo_get total total 0 i h
    simpa [syncWindows, BATCH_SIZE] using this
  · intro total
    have := syncWindowsGo_cover total total 0 (by simp only [BATCH_SIZE]; omega)
    simpa [syncWindows, BATCH_SIZE] using this
  · intro total w h
    exact syncWindowsGo_mem_lt total total 0 w h

/-- C5 witness: the general window shape evaluated at the concrete scenario,
window index 2 of the 2,500-row store, and membership of the first window. -/
theorem c5_witness :
    (syncWindows 2500).get ⟨2, by decide⟩ = (1000 * 2, min 1000 (2500 - 1000 * 2))
    ∧ ((0, 1000) : Nat × Nat).1 < 2500 :=
  ⟨c5_bulk_sync_windows.2.1 2500 2 (by decide),
   c5_bulk_sync_windows.2.2.2 2500 (0, 1000) (by decide)⟩

/-- C2 counterexample: the filter constraining only the (non-fuzzy) boolean
health-insurance slot selects no key relationally but every key through the
search translation, because `buildElasticSearchQuery` never translates that
slot: on a one-row store the key sets differ. -/
theorem c2_counterexample :
    esListKeys (fun _ _ _ => false) c2Filter [c2Row] 0 20 = [1]
    ∧ pgListKeys c2Filter [c2Row] 0 20 = []
    ∧ ([1] : List Nat) ≠ [] := by
  exact ⟨by decide, by decide, by decide⟩

/-- Helper: on filters populating only the slots both translators handle — the
exact-match industry slot and the two inclusive numeric ranges — every row
satisfies the conjunction of search-engine clauses exactly when it satisfies
the conjunction of SQL conditions. -/
theorem es_pg_conditions_agree (fm : EsField → String → String → Bool)
    (ind : Option String) (abp yei : Option NumRange) (r : Row) :
    (buildEsMust { industry := ind, annualBasePay := abp, yearsExperienceIndustry := yei }).all
        (evalEsClause fm r)
      = (buildWhereClause
          { industry := ind, annualBasePay := abp, yearsExperienceIndustry := yei }).all
        (evalPgCond r) := by
  rcases ind with _ | iv <;>
    rcases abp with _ | ⟨_ | abm, _ | abM⟩ <;>
      rcases yei with _ | ⟨_ | ym, _ | yM⟩ <;>
        simp [buildWhereClause, buildEsMust, evalPgCond, evalEsClause, Row.strCol,
          Row.esStrField, Row.intCol, Row.esIntField, List.all_append, Bool.and_assoc]

/-- C2 amended: for every LogicalFilter populating only the slots whose two
translations agree — exact-match `industry` and the inclusive ranges
`annualBasePay` and `yearsExperienceIndustry` — under the default
creation-order-descending sort and any offset/limit pagination, the relational
and search-engine translations select the same row keys in the same order. -/
theorem c2_amended_equivalence (fm : EsField → String → String → Bool)
    (ind : Option String) (abp yei : Option NumRange)
    (rows : List Row) (offset limit : Nat) :
    esListKeys fm { industry := ind, annualBasePay := abp, yearsExperienceIndustry := yei }
        rows offset limit
      = pgListKeys { industry := ind, annualBasePay := abp, yearsExperienceIndustry := yei }
        rows offset limit := by
  unfold esListKeys pgListKeys
  congr 1
  unfold esSelectedRows pgSelectedRows
  congr 1
  funext r
  exact es_pg_conditions_agree fm ind abp yei r

end Staple
